import Mathlib

/-!
Verification of the asynchronous analysis & caching pipeline of a
stock-commentary social platform (StockTwits clone).

The development shallowly embeds the pipeline's pure logic:

* `src/lib/anthropic.ts` — validators/normalizers for untrusted model
  output, `analyzePost`, `analyzeCommunitySentiment`, `analyzeNewsSentiment`;
* `src/lib/gemini.ts` — the manual-analysis provider (its validators are
  semantically identical to the ones in `anthropic.ts`);
* `src/lib/finnhub.ts` — `getCompanyNews` with the `TICKER_FALLBACKS` alias map;
* `src/lib/inngest/functions.ts` — the trending aggregation, the analyze-post
  write-back, and the per-ticker news-sentiment refresh loop;
* the news-sentiment GET route — cache freshness, stale fallback and upsert.

JavaScript numbers are modelled as exact rationals (`ℚ`), with NaN as a
separate constructor since every JS comparison involving NaN is false.
Strings use Lean's `String`, with small helpers mirroring the JS string
methods (`toLowerCase`, `trim`, `split(" ")`, ...) character by character;
the analysed inputs are ASCII, where JS UTF-16 lengths agree with Lean
character counts.  Network and database effects are passed in explicitly:
each adapter takes the upstream outcome (success payload or a failure mode)
as an argument, and every adapter is a total function into its result
type — the source wraps every provider call in try/catch, so no expected
failure mode escapes as an exception.
-/

set_option linter.unusedVariables false

/-- JavaScript `String.prototype.toLowerCase` (ASCII): lower-case every
character. -/
def jsToLower (s : String) : String := String.mk (s.data.map Char.toLower)

/-- JavaScript `String.prototype.toUpperCase` (ASCII): upper-case every
character. -/
def jsToUpper (s : String) : String := String.mk (s.data.map Char.toUpper)

/-- JavaScript `String.prototype.trim`: strip whitespace from both ends. -/
def jsTrim (s : String) : String :=
  String.mk (((s.data.dropWhile Char.isWhitespace).reverse.dropWhile Char.isWhitespace).reverse)

/-- Helper for `jsSplitOnSpace`: walk the characters, cutting at every
single space, like JS `split(" ")` (consecutive spaces yield empty words). -/
def splitOnSpaceAux : List Char → List Char → List String
  | [], acc => [String.mk acc.reverse]
  | c :: rest, acc =>
      if c = ' ' then String.mk acc.reverse :: splitOnSpaceAux rest []
      else splitOnSpaceAux rest (c :: acc)

/-- JavaScript `String.prototype.split(" ")`. -/
def jsSplitOnSpace (s : String) : List String := splitOnSpaceAux s.data []

/-- A JavaScript value as seen by the validators: a finite number, the
floating-point NaN (which has JS type "number" yet fails every comparison),
a string, an array, or any other value (object, null, undefined, boolean). -/
inductive JVal where
  | num (q : ℚ)
  | nan
  | str (s : String)
  | arr (l : List JVal)
  | other

/-- JavaScript `Math.round` on a finite number: halves round toward
positive infinity, i.e. the floor of `x + 1/2`. -/
def jsRound (q : ℚ) : ℤ := ⌊q + 1/2⌋

/-- Model of `typeof v === "number" ? Math.round(v) : 0` applied to one
percentage field of the parsed reply (src/lib/anthropic.ts lines 549-551):
non-numbers default to 0, NaN (a JS number, so not caught by the typeof
test) propagates as NaN (modelled as `none`), finite numbers are rounded. -/
def coercePercent : JVal → Option ℤ
  | .num q => some (jsRound q)
  | .nan => none
  | _ => some 0

/-- Normalization of the percentage triple in `analyzeNewsSentiment`
(src/lib/anthropic.ts lines 549-557).  Each field goes through
`coercePercent`; if the total of the three coerced values is positive, the
first two are rescaled as `Math.round((p / total) * 100)` and the third is
`100 - first - second`; otherwise — total zero or negative, or any NaN, for
which the JS test `total > 0` is false — the fixed split (34, 33, 33) is
returned. -/
def normalizeNewsPercentages (v1 v2 v3 : JVal) : ℤ × ℤ × ℤ :=
  match coercePercent v1, coercePercent v2, coercePercent v3 with
  | some x, some y, some z =>
      let total := x + y + z
      if 0 < total then
        let normalizedBullish := jsRound ((x : ℚ) / (total : ℚ) * 100)
        let normalizedBearish := jsRound ((y : ℚ) / (total : ℚ) * 100)
        (normalizedBullish, normalizedBearish, 100 - normalizedBullish - normalizedBearish)
      else (34, 33, 33)
  | _, _, _ => (34, 33, 33)

/-- The fixed list of recognised insight types (src/lib/anthropic.ts lines
22-30, identical in src/lib/gemini.ts). -/
def VALID_INSIGHT_TYPES : List String :=
  ["fundamental", "technical", "macro", "earnings", "risk", "news", "sentiment"]

/-- `validateQualityScore` (src/lib/anthropic.ts lines 157-160 and
src/lib/gemini.ts lines 172-177, identical semantics): non-numbers and NaN
give null, finite numbers are clamped into [0, 1] by
`Math.max(0, Math.min(1, score))`. -/
def validateQualityScore : JVal → Option ℚ
  | .num q => some (max 0 (min 1 q))
  | _ => none

/-- `validateInsightType` (src/lib/anthropic.ts lines 162-166):
lower-cased, trimmed, then looked up in `VALID_INSIGHT_TYPES`; anything
unrecognised becomes null. -/
def validateInsightType : JVal → Option String
  | .str s =>
      let normalized := jsTrim (jsToLower s)
      if VALID_INSIGHT_TYPES.contains normalized then some normalized else none
  | _ => none

/-- One word of the sector title-casing:
`word.charAt(0).toUpperCase() + word.slice(1).toLowerCase()`. -/
def titleCaseWord (w : String) : String :=
  match w.data with
  | [] => ""
  | c :: rest => String.mk (c.toUpper :: rest.map Char.toLower)

/-- `validateSector` (src/lib/anthropic.ts lines 168-176): trimmed; empty or
"unknown" becomes null; otherwise each space-separated word is title-cased
and the words are rejoined with single spaces. -/
def validateSector : JVal → Option String
  | .str s =>
      let trimmed := jsTrim s
      if trimmed.length = 0 ∨ jsToLower trimmed = "unknown" then none
      else some (String.intercalate " " ((jsSplitOnSpace trimmed).map titleCaseWord))
  | _ => none

/-- `validateSummary` (src/lib/anthropic.ts lines 178-183): trimmed; empty
becomes null; longer than 150 characters becomes the first 147 characters
followed by the "..." ellipsis marker. -/
def validateSummary : JVal → Option String
  | .str s =>
      let trimmed := jsTrim s
      if trimmed.length = 0 then none
      else if 150 < trimmed.length then some ((trimmed.take 147) ++ "...")
      else some trimmed
  | _ => none

/-- `validateCommunitySummary` (src/lib/anthropic.ts lines 376-382): like
`validateSummary` but with the 300-character cap used for community
summaries. -/
def validateCommunitySummary : JVal → Option String
  | .str s =>
      let trimmed := jsTrim s
      if trimmed.length = 0 then none
      else if 300 < trimmed.length then some ((trimmed.take 297) ++ "...")
      else some trimmed
  | _ => none

/-- `validateKeyThemes` (src/lib/anthropic.ts lines 384-390): non-arrays
give []; entries that are not non-blank strings are dropped; at most 3
survive, each trimmed. -/
def validateKeyThemes : JVal → List String
  | .arr l =>
      ((l.filter fun t =>
          match t with
          | .str s => (jsTrim s).length != 0
          | _ => false).take 3).map fun t =>
        match t with
        | .str s => jsTrim s
        | _ => ""
  | _ => []

/-- The recognised sentiment-strength labels (src/lib/anthropic.ts line 222). -/
def VALID_SENTIMENT_STRENGTHS : List String := ["strong", "moderate", "weak", "mixed"]

/-- The recognised confidence labels (src/lib/anthropic.ts line 223). -/
def VALID_CONFIDENCE_LEVELS : List String := ["high", "medium", "low"]

/-- `validateSentimentStrength` (src/lib/anthropic.ts lines 392-400). -/
def validateSentimentStrength : JVal → Option String
  | .str s =>
      let normalized := jsTrim (jsToLower s)
      if VALID_SENTIMENT_STRENGTHS.contains normalized then some normalized else none
  | _ => none

/-- `validateConfidence` (src/lib/anthropic.ts lines 402-410). -/
def validateConfidence : JVal → Option String
  | .str s =>
      let normalized := jsTrim (jsToLower s)
      if VALID_CONFIDENCE_LEVELS.contains normalized then some normalized else none
  | _ => none

/-- `PostAnalysis` (src/lib/anthropic.ts lines 14-19): all four derived
fields independently nullable. -/
structure PostAnalysis where
  qualityScore : Option ℚ
  insightType : Option String
  sector : Option String
  summary : Option String
deriving Repr, DecidableEq

/-- `getNullAnalysis` (src/lib/anthropic.ts lines 185-192): the uniform
"no analysis" value. -/
def getNullAnalysis : PostAnalysis :=
  { qualityScore := none, insightType := none, sector := none, summary := none }

/-- The shape of the model's raw text reply once the adapter has it in
hand: either no JSON object could be located in the text, or `JSON.parse`
threw on the extracted candidate, or an object with the four analysis
fields (each an arbitrary JS value) was parsed. -/
inductive RawReply where
  | noJson
  | malformed
  | obj (qualityScore insightType sector summary : JVal)

/-- `parseAnalysisResponse` (src/lib/anthropic.ts lines 134-155): no JSON
or a parse error gives the null analysis; otherwise each field is
validated independently. -/
def parseAnalysisResponse : RawReply → PostAnalysis
  | .noJson => getNullAnalysis
  | .malformed => getNullAnalysis
  | .obj qualityScore insightType sector summary =>
      { qualityScore := validateQualityScore qualityScore
        insightType := validateInsightType insightType
        sector := validateSector sector
        summary := validateSummary summary }

/-- The expected failure modes of one provider call; in the source every
one of these surfaces as an exception that the adapter catches. -/
inductive AdapterFailure where
  | timeout
  | networkError
  | httpError (status : ℕ)
  | rateLimit
  | sdkError

/-- The outcome of one upstream call: a payload, or one of the expected
failure modes. -/
inductive AdapterOutcome (α : Type) where
  | success (a : α)
  | failure (f : AdapterFailure)

/-- `analyzePost` (src/lib/anthropic.ts lines 74-129): a missing
`ANTHROPIC_API_KEY` short-circuits to the null analysis; a successful call
is parsed and validated; every caught failure also yields the null
analysis.  The post `content` and `tickers` only feed the prompt, so the
result is a function of the key flag and the upstream outcome alone.  The
total return type records that the adapter never lets an exception
escape. -/
def analyzePost (hasKey : Bool) (content : String) (tickers : List String)
    (o : AdapterOutcome RawReply) : PostAnalysis :=
  if hasKey = false then getNullAnalysis
  else
    match o with
    | .success raw => parseAnalysisResponse raw
    | .failure _ => getNullAnalysis

/-- `CommunitySentimentAnalysis` (src/lib/anthropic.ts lines 207-212). -/
structure CommunitySentimentAnalysis where
  summary : Option String
  keyThemes : List String
  sentimentStrength : Option String
  confidence : Option String
deriving Repr, DecidableEq

/-- `getNullCommunityAnalysis` (src/lib/anthropic.ts lines 412-419). -/
def getNullCommunityAnalysis : CommunitySentimentAnalysis :=
  { summary := none, keyThemes := [], sentimentStrength := none, confidence := none }

/-- One qualifying post handed to the community-summarization adapter. -/
structure CommunityPost where
  content : String
  sentiment : String
  qualityScore : Option ℚ

/-- The parsed shape of the community-summarization reply. -/
inductive CommunityRawReply where
  | noJson
  | malformed
  | obj (summary keyThemes sentimentStrength confidence : JVal)

/-- `parseCommunityAnalysisResponse` (src/lib/anthropic.ts lines 353-374). -/
def parseCommunityAnalysisResponse : CommunityRawReply → CommunitySentimentAnalysis
  | .noJson => getNullCommunityAnalysis
  | .malformed => getNullCommunityAnalysis
  | .obj summary keyThemes sentimentStrength confidence =>
      { summary := validateCommunitySummary summary
        keyThemes := validateKeyThemes keyThemes
        sentimentStrength := validateSentimentStrength sentimentStrength
        confidence := validateConfidence confidence }

/-- `analyzeCommunitySentiment` (src/lib/anthropic.ts lines 282-348): a
missing key gives the null analysis; fewer than 3 posts short-circuits to
the null analysis before the upstream call (the result therefore cannot
depend on the outcome argument); otherwise the reply is parsed, and every
caught failure gives the null analysis. -/
def analyzeCommunitySentiment (hasKey : Bool) (symbol period : String)
    (posts : List CommunityPost) (breakdown : ℤ × ℤ × ℤ)
    (o : AdapterOutcome CommunityRawReply) : CommunitySentimentAnalysis :=
  if hasKey = false then getNullCommunityAnalysis
  else if posts.length < 3 then getNullCommunityAnalysis
  else
    match o with
    | .success raw => parseCommunityAnalysisResponse raw
    | .failure _ => getNullCommunityAnalysis

/-- `NewsSentimentWithPercentages` (src/lib/anthropic.ts lines 428-432). -/
structure NewsSentimentWithPercentages where
  summary : Option String
  keyThemes : List String
  sentimentStrength : Option String
  confidence : Option String
  bullishPercent : ℤ
  bearishPercent : ℤ
  neutralPercent : ℤ
deriving Repr, DecidableEq

/-- The `nullResult` of `analyzeNewsSentiment` (src/lib/anthropic.ts lines
450-458): all fields absent and all percentages 0. -/
def nullNewsResult : NewsSentimentWithPercentages :=
  { summary := none, keyThemes := [], sentimentStrength := none, confidence := none
    bullishPercent := 0, bearishPercent := 0, neutralPercent := 0 }

/-- One article as handed to the news-sentiment summarization call
(headline, nullable summary, source). -/
structure NewsArticleData where
  headline : String
  summary : Option String
  source : String
deriving Repr, DecidableEq

/-- The parsed shape of the news-sentiment reply: no text block in the
response or no JSON in the text (both thrown then caught), a JSON parse
error (thrown then caught), or an object with the seven fields. -/
inductive NewsRawReply where
  | noTextBlock
  | noJson
  | malformed
  | obj (bullishPercent bearishPercent neutralPercent summary keyThemes
        sentimentStrength confidence : JVal)

/-- The success-path parsing and validation inside `analyzeNewsSentiment`
(src/lib/anthropic.ts lines 534-567): the three percentages are coerced
and normalized by `normalizeNewsPercentages`, the other fields go through
the shared validators (note the 150-char `validateSummary`, not the
community one); the thrown-and-caught shapes give the null result. -/
def parseNewsSentimentResponse : NewsRawReply → NewsSentimentWithPercentages
  | .noTextBlock => nullNewsResult
  | .noJson => nullNewsResult
  | .malformed => nullNewsResult
  | .obj bullishPercent bearishPercent neutralPercent summary keyThemes
      sentimentStrength confidence =>
      let p := normalizeNewsPercentages bullishPercent bearishPercent neutralPercent
      { summary := validateSummary summary
        keyThemes := validateKeyThemes keyThemes
        sentimentStrength := validateSentimentStrength sentimentStrength
        confidence := validateConfidence confidence
        bullishPercent := p.1
        bearishPercent := p.2.1
        neutralPercent := p.2.2 }

/-- `analyzeNewsSentiment` (src/lib/anthropic.ts lines 446-572): fewer than
3 articles short-circuits to the null result before the key check and
before any upstream call; a missing key gives the null result; otherwise
the reply is parsed and every caught failure gives the null result. -/
def analyzeNewsSentiment (hasKey : Bool) (symbol : String)
    (articles : List NewsArticleData) (o : AdapterOutcome NewsRawReply) :
    NewsSentimentWithPercentages :=
  if articles.length < 3 then nullNewsResult
  else if hasKey = false then nullNewsResult
  else
    match o with
    | .success raw => parseNewsSentimentResponse raw
    | .failure _ => nullNewsResult

/-- `FinnhubNewsArticle` (src/lib/finnhub.ts lines 18-28). -/
structure FinnhubNewsArticle where
  category : String
  datetime : ℤ
  headline : String
  id : ℤ
  image : String
  related : String
  source : String
  summary : String
  url : String
deriving Repr, DecidableEq

/-- `TICKER_FALLBACKS` (src/lib/finnhub.ts lines 58-63): the static,
symmetric dual-share-class alias map. -/
def TICKER_FALLBACKS (s : String) : Option String :=
  if s = "GOOG" then some "GOOGL"
  else if s = "GOOGL" then some "GOOG"
  else if s = "BRK.A" then some "BRK.B"
  else if s = "BRK.B" then some "BRK.A"
  else none

/-- `fetchNewsForTicker` (src/lib/finnhub.ts lines 122-166): a successful
fetch returns the decoded article list; every failure (HTTP error, rate
limit, bad key, network error) is caught and becomes the empty list. -/
def fetchNewsForTicker (o : AdapterOutcome (List FinnhubNewsArticle)) :
    List FinnhubNewsArticle :=
  match o with
  | .success articles => articles
  | .failure _ => []

/-- `getCompanyNews` (src/lib/finnhub.ts lines 83-117): a missing
`FINNHUB_API_KEY` gives the empty list; otherwise the upper-cased primary
symbol is fetched first, and only if it yields fewer than `MIN_ARTICLES`
(3) articles and an alias exists is the alias fetched; the alias result is
used only when strictly larger.  `fetch` maps each queried ticker to its
upstream outcome; `daysBack` only feeds the request URL. -/
def getCompanyNews (hasKey : Bool) (symbol : String) (daysBack : ℕ)
    (fetch : String → AdapterOutcome (List FinnhubNewsArticle)) :
    List FinnhubNewsArticle :=
  if hasKey = false then []
  else
    let upperSymbol := jsToUpper symbol
    let articles := fetchNewsForTicker (fetch upperSymbol)
    if articles.length < 3 then
      match TICKER_FALLBACKS upperSymbol with
      | some fallbackSymbol =>
          let fallbackArticles := fetchNewsForTicker (fetch fallbackSymbol)
          if articles.length < fallbackArticles.length then fallbackArticles
          else articles
      | none => articles
    else articles

/-- One `PostTicker` row joined with its post's creation time, the data
the trending query groups (src/lib/inngest/functions.ts lines 99-107). -/
structure PostTickerMention where
  symbol : String
  postCreatedAt : ℤ
deriving Repr, DecidableEq

/-- The distinct symbols of a list in first-appearance order, modelling the
grouping step of the Prisma `groupBy` query. -/
def distinctFirst (l : List String) : List String :=
  l.foldl (fun acc s => if acc.contains s then acc else acc ++ [s]) []

/-- Insertion of one (symbol, count) group into a list already sorted by
descending count.  Insertion is stable: on equal counts the inserted
element, which came earlier in the grouping order, stays first. -/
def insertByCountDesc (x : String × ℕ) : List (String × ℕ) → List (String × ℕ)
  | [] => [x]
  | h :: t => if h.2 ≤ x.2 then x :: h :: t else h :: insertByCountDesc x t

/-- Stable sort by descending count, modelling `orderBy count desc` of the
trending query.  The source query specifies no secondary ordering, so ties
keep their grouping (first-appearance) order in the model. -/
def sortByCountDesc : List (String × ℕ) → List (String × ℕ)
  | [] => []
  | x :: rest => insertByCountDesc x (sortByCountDesc rest)

/-- `refreshTrendingFunction`'s aggregation (src/lib/inngest/functions.ts
lines 92-113): count ticker mentions of posts with
`createdAt >= now - 24h` (Prisma `gte`, so the boundary instant is
included), group by symbol, order by count descending, take 10. -/
def refreshTrending (now : ℤ) (mentions : List PostTickerMention) :
    List (String × ℕ) :=
  let last24h := now - 24 * 60 * 60 * 1000
  let qualifying := mentions.filter fun m => decide (last24h ≤ m.postCreatedAt)
  let trendingData := (distinctFirst (qualifying.map (·.symbol))).map fun s =>
    (s, (qualifying.filter fun m => m.symbol == s).length)
  (sortByCountDesc trendingData).take 10

/-- A stored post as the analyze-one-post job sees it: the immutable
content, tickers, self-declared sentiment and creation time, plus the four
derived analysis fields. -/
structure StoredPost where
  content : String
  tickers : List String
  sentiment : String
  createdAt : ℤ
  qualityScore : Option ℚ
  insightType : Option String
  sector : Option String
  summary : Option String
deriving Repr, DecidableEq

/-- The write-back of `analyzePostFunction` (src/lib/inngest/functions.ts
lines 50-58) and of the manual analyze route
(src/app/api/posts/[id]/analyze/route.ts lines 73-91): a full overwrite of
exactly the four derived fields, leaving content, tickers, sentiment and
creation time untouched. -/
def writeBackAnalysis (post : StoredPost) (analysis : PostAnalysis) : StoredPost :=
  { post with
    qualityScore := analysis.qualityScore
    insightType := analysis.insightType
    sector := analysis.sector
    summary := analysis.summary }

/-- One run of the analyze-one-post job body (src/lib/inngest/functions.ts
lines 39-68): analyze the post's content and tickers against the given
upstream outcome, then write the result back. -/
def runAnalyzePostJob (hasKey : Bool) (o : AdapterOutcome RawReply)
    (post : StoredPost) : StoredPost :=
  writeBackAnalysis post (analyzePost hasKey post.content post.tickers o)

/-- One `NewsSentimentCache` row. -/
structure NewsSentimentCacheRow where
  symbol : String
  bullishPercent : ℤ
  bearishPercent : ℤ
  neutralPercent : ℤ
  companyNewsScore : ℚ
  articleCount : ℕ
  summary : Option String
  keyThemes : List String
  sentimentStrength : Option String
  confidence : Option String
  lastUpdated : ℤ
deriving Repr, DecidableEq

/-- The cache row written by both news-sentiment refresh paths
(src/lib/inngest/functions.ts lines 209-239 and the GET route lines
126-156): Claude's percentages verbatim,
`companyNewsScore = (bullish - bearish) / 100`, the fetched article count,
and the validated text fields; `lastUpdated` is the write time. -/
def mkCacheRow (symbol : String) (aiAnalysis : NewsSentimentWithPercentages)
    (articleCount : ℕ) (now : ℤ) : NewsSentimentCacheRow :=
  { symbol
    bullishPercent := aiAnalysis.bullishPercent
    bearishPercent := aiAnalysis.bearishPercent
    neutralPercent := aiAnalysis.neutralPercent
    companyNewsScore := ((aiAnalysis.bullishPercent - aiAnalysis.bearishPercent : ℤ) : ℚ) / 100
    articleCount
    summary := aiAnalysis.summary
    keyThemes := aiAnalysis.keyThemes
    sentimentStrength := aiAnalysis.sentimentStrength
    confidence := aiAnalysis.confidence
    lastUpdated := now }

/-- The news-sentiment cache table: one row per symbol key. -/
def CacheMap : Type := List (String × NewsSentimentCacheRow)

/-- Keyed upsert: replace the row at the key if present, else append.
This is the full-record create-or-replace of Prisma `upsert`. -/
def upsertCache : CacheMap → String → NewsSentimentCacheRow → CacheMap
  | [], symbol, row => [(symbol, row)]
  | (s, r) :: rest, symbol, row =>
      if s = symbol then (symbol, row) :: rest
      else (s, r) :: upsertCache rest symbol row

/-- The response of the news-sentiment GET route, as far as the pipeline
claims go: a fresh/updated payload (`available: true`), a stale cached
payload (`available: true, isStale: true` plus the human-readable reason),
or the explicit unavailable message (`available: false`).  None of these
is an HTTP error. -/
inductive NewsSentimentResponse where
  | ok (row : NewsSentimentCacheRow)
  | staleOk (row : NewsSentimentCacheRow) (staleReason : String)
  | unavailable (message : String)
deriving Repr, DecidableEq

/-- The article list formatting shared by both refresh paths: keep the
first 10 articles, turn the JS-falsy empty summary into null. -/
def formatArticleData (articles : List FinnhubNewsArticle) : List NewsArticleData :=
  (articles.take 10).map fun a =>
    { headline := a.headline
      summary := if a.summary = "" then none else some a.summary
      source := a.source }

/-- The news-sentiment GET handler (the unnamed route file, lines 26-233),
as a function of the clock, the cached row for the symbol, the presence of
the summarization credential, the fetched articles and the summarization
outcome.  It returns the response together with the symbol's cache row
after the request.  The cache is fresh iff `lastUpdated` is strictly newer
than 30 minutes ago; a force-refresh or a non-fresh cache enters the
refresh branch; there, fewer than 3 fetched articles falls back to the
stale cached row when one exists (flagged, with a reason) and to the
explicit unavailable message when none does; with enough articles the
analysis (available or not) is upserted and returned. -/
def newsSentimentGET (now : ℤ) (symbol : String) (forceRefresh : Bool)
    (cached : Option NewsSentimentCacheRow) (hasKey : Bool)
    (articles : List FinnhubNewsArticle) (o : AdapterOutcome NewsRawReply) :
    NewsSentimentResponse × Option NewsSentimentCacheRow :=
  let upperSymbol := jsToUpper symbol
  let thirtyMinutesAgo := now - 30 * 60 * 1000
  let isCacheFresh :=
    match cached with
    | some c => decide (thirtyMinutesAgo < c.lastUpdated)
    | none => false
  if forceRefresh || !isCacheFresh then
    if articles.length < 3 then
      match cached with
      | some c =>
          (.staleOk c ("Not enough recent news articles (" ++
              toString articles.length ++
              " found, 3 required). Showing previous analysis."),
           some c)
      | none =>
          (.unavailable
             "Not enough news articles found for analysis. Try a more popular ticker.",
           none)
    else
      let aiAnalysis := analyzeNewsSentiment hasKey upperSymbol (formatArticleData articles) o
      let row := mkCacheRow upperSymbol aiAnalysis articles.length now
      (.ok row, some row)
  else
    match cached with
    | some c => (.ok c, some c)
    | none =>
        (.unavailable
           "No news sentiment data available for this stock. Try a more popular ticker like AAPL or TSLA.",
         none)

/-- One entry of the per-run `results` list of the scheduled refresh
(src/lib/inngest/functions.ts lines 176-181). -/
structure RefreshResultEntry where
  symbol : String
  success : Bool
  error : Option String
  articleCount : Option ℕ
deriving Repr, DecidableEq

/-- What happens while one symbol of the scheduled refresh is processed:
everything succeeds with the given fetched articles and analysis value; or
an exception is thrown before the sentiment-cache upsert (provider SDK or
database error); or an exception is thrown after the sentiment-cache
upsert succeeded (e.g. while storing individual articles).  `getCompanyNews`
and `analyzeNewsSentiment` themselves never throw, but the database calls
can. -/
inductive SymbolRun where
  | ok (articles : List FinnhubNewsArticle) (analysis : NewsSentimentWithPercentages)
  | failBefore (e : String)
  | failAfter (e : String) (articles : List FinnhubNewsArticle)
      (analysis : NewsSentimentWithPercentages)

/-- One iteration of the refresh loop (src/lib/inngest/functions.ts lines
184-279): fewer than 3 articles records "Not enough articles" and leaves
the cache alone; a completed iteration upserts the symbol's row and
records success with the stored-article count (at most 20); an exception
is caught and recorded against the symbol, keeping the upsert when it had
already happened.  Every branch returns, so the loop continues. -/
def refreshStep (now : ℤ) (run : SymbolRun) (symbol : String) (cache : CacheMap) :
    RefreshResultEntry × CacheMap :=
  match run with
  | .failBefore e =>
      ({ symbol, success := false, error := some e, articleCount := none }, cache)
  | .ok articles aiAnalysis =>
      if articles.length < 3 then
        ({ symbol, success := false, error := some "Not enough articles",
           articleCount := none }, cache)
      else
        ({ symbol, success := true, error := none,
           articleCount := some (articles.take 20).length },
         upsertCache cache symbol (mkCacheRow symbol aiAnalysis articles.length now))
  | .failAfter e articles aiAnalysis =>
      if articles.length < 3 then
        ({ symbol, success := false, error := some "Not enough articles",
           articleCount := none }, cache)
      else
        ({ symbol, success := false, error := some e, articleCount := none },
         upsertCache cache symbol (mkCacheRow symbol aiAnalysis articles.length now))

/-- The sequential loop of `refreshNewsSentimentFunction` over the active
symbols, threading the cache and accumulating the per-run result list. -/
def refreshNewsSentimentLoop (now : ℤ) (env : String → SymbolRun) :
    List String → CacheMap → List RefreshResultEntry × CacheMap
  | [], cache => ([], cache)
  | symbol :: rest, cache =>
      let step := refreshStep now (env symbol) symbol cache
      let tail := refreshNewsSentimentLoop now env rest step.2
      (step.1 :: tail.1, tail.2)

/-- Row lookup in the news-sentiment cache table. -/
def lookupCache : CacheMap → String → Option NewsSentimentCacheRow
  | [], _ => none
  | (s, r) :: rest, symbol => if s = symbol then some r else lookupCache rest symbol

lemma lookupCache_upsert_self (cache : CacheMap) (s : String)
    (row : NewsSentimentCacheRow) :
    lookupCache (upsertCache cache s row) s = some row := by
  induction cache with
  | nil => simp [upsertCache, lookupCache]
  | cons hd t ih =>
      obtain ⟨a, r⟩ := hd
      by_cases hc : a = s
      · subst hc
        simp [upsertCache, lookupCache]
      · simp [upsertCache, lookupCache, hc, ih]

lemma lookupCache_upsert_ne (cache : CacheMap) (s t : String)
    (row : NewsSentimentCacheRow) (h : t ≠ s) :
    lookupCache (upsertCache cache s row) t = lookupCache cache t := by
  have hst : ¬ s = t := fun hh => h hh.symm
  induction cache with
  | nil => simp [upsertCache, lookupCache, hst]
  | cons hd tl ih =>
      obtain ⟨a, r⟩ := hd
      by_cases hc : a = s
      · subst hc
        simp [upsertCache, lookupCache, hst]
      · simp [upsertCache, lookupCache, hc, ih]

lemma analyzeNewsSentiment_noKey (symbol : String) (articles : List NewsArticleData)
    (o : AdapterOutcome NewsRawReply) :
    analyzeNewsSentiment false symbol articles o = nullNewsResult := by
  unfold analyzeNewsSentiment
  split
  · rfl
  · rfl

lemma analyzeNewsSentiment_failure (symbol : String) (articles : List NewsArticleData)
    (f : AdapterFailure) :
    analyzeNewsSentiment true symbol articles (AdapterOutcome.failure f) = nullNewsResult := by
  unfold analyzeNewsSentiment
  split
  · rfl
  · rfl

/-- C9: Running the analyze-one-post job twice on the same post with the
same provider response leaves exactly the same stored fields as running it
once — the write-back overwrites all four derived fields and touches
nothing the analysis depends on, so re-execution after a partial failure
is idempotent. -/
theorem analyzePostJob_idempotent (hasKey : Bool) (o : AdapterOutcome RawReply)
    (post : StoredPost) :
    runAnalyzePostJob hasKey o (runAnalyzePostJob hasKey o post) =
      runAnalyzePostJob hasKey o post := rfl

/-- C5: For each provider adapter — post-quality analysis
(`analyzePost`), headline fetch (`getCompanyNews`), news-sentiment
summarization (`analyzeNewsSentiment`) — the missing-credential result is
exactly the runtime-failure result (the all-null analysis object, the
empty article list, the null news result).  All three adapters are total
functions into their result types: every expected failure mode is a
constructor of `AdapterFailure`, consumed here rather than re-thrown, so
no exception passes the adapter boundary. -/
theorem adapters_uniform_unavailable :
    (∀ content tickers o, analyzePost false content tickers o = getNullAnalysis)
  ∧ (∀ content tickers f,
       analyzePost true content tickers (AdapterOutcome.failure f) = getNullAnalysis)
  ∧ (∀ symbol daysBack fetch, getCompanyNews false symbol daysBack fetch = [])
  ∧ (∀ symbol daysBack f,
       getCompanyNews true symbol daysBack (fun t => AdapterOutcome.failure f) = [])
  ∧ (∀ symbol articles o, analyzeNewsSentiment false symbol articles o = nullNewsResult)
  ∧ (∀ symbol articles f,
       analyzeNewsSentiment true symbol articles (AdapterOutcome.failure f) = nullNewsResult) := by
  refine ⟨fun _ _ _ => rfl, fun _ _ _ => rfl, fun _ _ _ => rfl, ?_,
    fun s a o => analyzeNewsSentiment_noKey s a o,
    fun s a f => analyzeNewsSentiment_failure s a f⟩
  intro symbol daysBack f
  unfold getCompanyNews
  cases h : TICKER_FALLBACKS (jsToUpper symbol) <;> simp [h, fetchNewsForTicker]

/-- C6: The community-summarization call returns its unavailable result
whenever fewer than 3 qualifying posts are supplied, and the news-sentiment
summarization call returns its unavailable result whenever fewer than 3
articles are supplied — in both cases for every upstream outcome, which is
the embedding of "no upstream network call is made": the guard
short-circuits before the call, so the result cannot depend on it. -/
theorem insufficient_material_short_circuit
    (posts : List CommunityPost) (articles : List NewsArticleData)
    (hposts : posts.length < 3) (harticles : articles.length < 3) :
    (∀ hasKey symbol period breakdown o,
        analyzeCommunitySentiment hasKey symbol period posts breakdown o =
          getNullCommunityAnalysis)
  ∧ (∀ hasKey symbol o,
        analyzeNewsSentiment hasKey symbol articles o = nullNewsResult) := by
  constructor
  · intro hasKey symbol period breakdown o
    cases hasKey <;> simp [analyzeCommunitySentiment, hposts]
  · intro hasKey symbol o
    cases hasKey <;> simp [analyzeNewsSentiment, harticles]

/-- Witness for C6 at empty inputs: no posts and no articles give the null
results even for a key-holding process with a successful upstream. -/
theorem insufficient_material_short_circuit_witness :
    analyzeCommunitySentiment true "AAPL" "24h" [] (50, 30, 20)
        (AdapterOutcome.failure AdapterFailure.timeout) = getNullCommunityAnalysis ∧
    analyzeNewsSentiment true "AAPL" []
        (AdapterOutcome.success NewsRawReply.noJson) = nullNewsResult := by
  have h := insufficient_material_short_circuit ([] : List CommunityPost)
    ([] : List NewsArticleData) (by decide) (by decide)
  exact ⟨h.1 true "AAPL" "24h" (50, 30, 20) _, h.2 true "AAPL" _⟩

lemma normalizeNewsPercentages_some (v1 v2 v3 : JVal) (x y z : ℤ)
    (h1 : coercePercent v1 = some x) (h2 : coercePercent v2 = some y)
    (h3 : coercePercent v3 = some z) :
    normalizeNewsPercentages v1 v2 v3 =
      if 0 < x + y + z then
        (jsRound ((x : ℚ) / ((x + y + z : ℤ) : ℚ) * 100),
         jsRound ((y : ℚ) / ((x + y + z : ℤ) : ℚ) * 100),
         100 - jsRound ((x : ℚ) / ((x + y + z : ℤ) : ℚ) * 100) -
           jsRound ((y : ℚ) / ((x + y + z : ℤ) : ℚ) * 100))
      else (34, 33, 33) := by
  unfold normalizeNewsPercentages
  rw [h1, h2, h3]

lemma normalizeNewsPercentages_nan (v1 v2 v3 : JVal)
    (h : coercePercent v1 = none ∨ coercePercent v2 = none ∨ coercePercent v3 = none) :
    normalizeNewsPercentages v1 v2 v3 = (34, 33, 33) := by
  unfold normalizeNewsPercentages
  rcases h with h | h | h <;> rw [h] <;>
    cases coercePercent v1 <;> cases coercePercent v2 <;> cases coercePercent v3 <;> rfl

/-- C1 (amended): For every percentage-triple input the normalization in
`analyzeNewsSentiment` returns three integers summing to exactly 100; each
non-numeric component defaults to 0; when the three coerced values do not
have positive sum (in particular when the raw sum is 0, and also when any
component is NaN) the fixed split 34/33/33 is returned; and for positive
sum the first two values are scaled to percentages of the total with the
third computed as 100 minus the first two.  The individual components are
not guaranteed to lie in [0, 100]. -/
theorem newsPercentages_normalization :
    (∀ v1 v2 v3 : JVal,
        (normalizeNewsPercentages v1 v2 v3).1 +
          (normalizeNewsPercentages v1 v2 v3).2.1 +
          (normalizeNewsPercentages v1 v2 v3).2.2 = 100)
  ∧ (∀ s, coercePercent (JVal.str s) = some 0)
  ∧ coercePercent JVal.other = some 0
  ∧ (∀ l, coercePercent (JVal.arr l) = some 0)
  ∧ (∀ v1 v2 v3 : JVal,
       (coercePercent v1 = none ∨ coercePercent v2 = none ∨ coercePercent v3 = none) →
       normalizeNewsPercentages v1 v2 v3 = (34, 33, 33))
  ∧ (∀ (v1 v2 v3 : JVal) (x y z : ℤ),
       coercePercent v1 = some x → coercePercent v2 = some y →
       coercePercent v3 = some z →
       (x + y + z ≤ 0 → normalizeNewsPercentages v1 v2 v3 = (34, 33, 33)) ∧
       (0 < x + y + z →
         normalizeNewsPercentages v1 v2 v3 =
           (jsRound ((x : ℚ) / ((x + y + z : ℤ) : ℚ) * 100),
            jsRound ((y : ℚ) / ((x + y + z : ℤ) : ℚ) * 100),
            100 - jsRound ((x : ℚ) / ((x + y + z : ℤ) : ℚ) * 100) -
              jsRound ((y : ℚ) / ((x + y + z : ℤ) : ℚ) * 100)))) := by
  refine ⟨?_, fun _ => rfl, rfl, fun _ => rfl, ?_, ?_⟩
  · intro v1 v2 v3
    cases h1 : coercePercent v1 with
    | none =>
        rw [normalizeNewsPercentages_nan v1 v2 v3 (Or.inl h1)]
        decide
    | some x =>
        cases h2 : coercePercent v2 with
        | none =>
            rw [normalizeNewsPercentages_nan v1 v2 v3 (Or.inr (Or.inl h2))]
            decide
        | some y =>
            cases h3 : coercePercent v3 with
            | none =>
                rw [normalizeNewsPercentages_nan v1 v2 v3 (Or.inr (Or.inr h3))]
                decide
            | some z =>
                rw [normalizeNewsPercentages_some v1 v2 v3 x y z h1 h2 h3]
                by_cases ht : 0 < x + y + z
                · rw [if_pos ht]
                  ring
                · rw [if_neg ht]
                  decide
  · intro v1 v2 v3 h
    exact normalizeNewsPercentages_nan v1 v2 v3 h
  · intro v1 v2 v3 x y z h1 h2 h3
    rw [normalizeNewsPercentages_some v1 v2 v3 x y z h1 h2 h3]
    constructor
    · intro hle
      rw [if_neg (by omega)]
    · intro hpos
      rw [if_pos hpos]

/-- C1 counterexample: the raw triple (1, 7, 0) passes the positive-total
branch with total 8, where `Math.round(12.5) = 13` and
`Math.round(87.5) = 88` round the same way, so the third component becomes
`100 - 13 - 88 = -1` — outside [0, 100], refuting the claimed range
invariant (exact in IEEE doubles too, since 1/8 and 7/8 are dyadic). -/
theorem newsPercentages_range_counterexample :
    normalizeNewsPercentages (JVal.num 1) (JVal.num 7) (JVal.num 0) = (13, 88, -1) ∧
    (normalizeNewsPercentages (JVal.num 1) (JVal.num 7) (JVal.num 0)).2.2 < 0 := by
  have h1 : coercePercent (JVal.num 1) = some 1 := by
    show some (jsRound 1) = some 1
    norm_num [jsRound]
  have h2 : coercePercent (JVal.num 7) = some 7 := by
    show some (jsRound 7) = some 7
    norm_num [jsRound]
  have h3 : coercePercent (JVal.num 0) = some 0 := by
    show some (jsRound 0) = some 0
    norm_num [jsRound]
  have he : normalizeNewsPercentages (JVal.num 1) (JVal.num 7) (JVal.num 0) = (13, 88, -1) := by
    rw [normalizeNewsPercentages_some _ _ _ 1 7 0 h1 h2 h3]
    rw [if_pos (by norm_num)]
    have hb : jsRound (((1 : ℤ) : ℚ) / ((1 + 7 + 0 : ℤ) : ℚ) * 100) = 13 := by
      norm_num [jsRound]
    have hr : jsRound (((7 : ℤ) : ℚ) / ((1 + 7 + 0 : ℤ) : ℚ) * 100) = 88 := by
      norm_num [jsRound]
    rw [hb, hr]
    norm_num
  exact ⟨he, by rw [he]; norm_num⟩

/-- Witness for C1 at the triple (20, 30, 50): the positive-total branch
returns the identical triple, and the non-positive-sum branch at
(0, 0, 0) returns the 34/33/33 split. -/
theorem newsPercentages_normalization_witness :
    normalizeNewsPercentages (JVal.num 20) (JVal.num 30) (JVal.num 50) = (20, 30, 50) ∧
    normalizeNewsPercentages (JVal.num 0) (JVal.num 0) (JVal.num 0) = (34, 33, 33) := by
  have c20 : coercePercent (JVal.num 20) = some 20 := by
    show some (jsRound 20) = some 20
    norm_num [jsRound]
  have c30 : coercePercent (JVal.num 30) = some 30 := by
    show some (jsRound 30) = some 30
    norm_num [jsRound]
  have c50 : coercePercent (JVal.num 50) = some 50 := by
    show some (jsRound 50) = some 50
    norm_num [jsRound]
  have c0 : coercePercent (JVal.num 0) = some 0 := by
    show some (jsRound 0) = some 0
    norm_num [jsRound]
  constructor
  · have h := ((newsPercentages_normalization.2.2.2.2.2
      (JVal.num 20) (JVal.num 30) (JVal.num 50) 20 30 50 c20 c30 c50).2 (by norm_num))
    rw [h]
    have hb : jsRound (((20 : ℤ) : ℚ) / ((20 + 30 + 50 : ℤ) : ℚ) * 100) = 20 := by
      norm_num [jsRound]
    have hr : jsRound (((30 : ℤ) : ℚ) / ((20 + 30 + 50 : ℤ) : ℚ) * 100) = 30 := by
      norm_num [jsRound]
    rw [hb, hr]
    norm_num
  · exact (newsPercentages_normalization.2.2.2.2.2
      (JVal.num 0) (JVal.num 0) (JVal.num 0) 0 0 0 c0 c0 c0).1 (by norm_num)

lemma mem_insertByCountDesc {y x : String × ℕ} {l : List (String × ℕ)} :
    y ∈ insertByCountDesc x l ↔ y = x ∨ y ∈ l := by
  induction l with
  | nil => simp [insertByCountDesc]
  | cons h t ih =>
      rw [insertByCountDesc]
      split
      · simp only [List.mem_cons]
      · simp only [List.mem_cons, ih]
        tauto

lemma mem_sortByCountDesc {y : String × ℕ} {l : List (String × ℕ)} :
    y ∈ sortByCountDesc l ↔ y ∈ l := by
  induction l with
  | nil => simp [sortByCountDesc]
  | cons h t ih =>
      rw [sortByCountDesc]
      simp only [mem_insertByCountDesc, List.mem_cons, ih]

lemma pairwise_insertByCountDesc {x : String × ℕ} {l : List (String × ℕ)}
    (hl : l.Pairwise fun p q => q.2 ≤ p.2) :
    (insertByCountDesc x l).Pairwise fun p q => q.2 ≤ p.2 := by
  induction l with
  | nil => simp [insertByCountDesc]
  | cons h t ih =>
      rw [insertByCountDesc]
      rcases List.pairwise_cons.mp hl with ⟨hh, ht⟩
      split
      · rename_i hc
        refine List.pairwise_cons.mpr ⟨?_, hl⟩
        intro q hq
        rcases List.mem_cons.mp hq with rfl | hq2
        · exact hc
        · exact le_trans (hh q hq2) hc
      · rename_i hc
        refine List.pairwise_cons.mpr ⟨?_, ih ht⟩
        intro q hq
        rcases mem_insertByCountDesc.mp hq with rfl | hq2
        · omega
        · exact hh q hq2

lemma pairwise_sortByCountDesc (l : List (String × ℕ)) :
    (sortByCountDesc l).Pairwise fun p q => q.2 ≤ p.2 := by
  induction l with
  | nil => simp [sortByCountDesc]
  | cons h t ih =>
      rw [sortByCountDesc]
      exact pairwise_insertByCountDesc ih

/-- C2 (amended): The trending aggregation returns at most 10
(symbol, count) entries, in non-increasing count order, where each listed
symbol's count is the number of ticker mentions of posts created within
the trailing 24-hour window with the boundary instant included
(`createdAt >= now - 24h`, Prisma `gte`).  The source query orders by
count descending only, so the relative order of equal counts is not
specified; the embedding keeps grouping (first-appearance) order. -/
theorem refreshTrending_amended (now : ℤ) (mentions : List PostTickerMention) :
    (refreshTrending now mentions).length ≤ 10
  ∧ (refreshTrending now mentions).Pairwise (fun p q => q.2 ≤ p.2)
  ∧ (∀ p, p ∈ refreshTrending now mentions →
      p.2 = ((mentions.filter fun m =>
          decide (now - 24 * 60 * 60 * 1000 ≤ m.postCreatedAt)).filter
          fun m => m.symbol == p.1).length) := by
  refine ⟨?_, ?_, ?_⟩
  · show (List.take 10 _).length ≤ 10
    rw [List.length_take]
    exact min_le_left _ _
  · exact List.Pairwise.sublist (List.take_sublist _ _) (pairwise_sortByCountDesc _)
  · intro p hp
    simp only [refreshTrending] at hp
    have hp2 := List.take_subset _ _ hp
    have hp3 := mem_sortByCountDesc.mp hp2
    obtain ⟨s, hs, hps⟩ := List.mem_map.mp hp3
    rw [← hps]

/-- C2 counterexample: with the clock at 86400000 the 24-hour cutoff is 0;
the mention of "ZZZ" on a post created exactly at the boundary instant is
counted (the claim says it is excluded, which would leave only
[("AAA", 1)]), and on the resulting tie the output is not in lexical
symbol order (the claim's tie-break would put "AAA" first). -/
theorem refreshTrending_counterexample :
    refreshTrending 86400000 [⟨"ZZZ", 0⟩, ⟨"AAA", 1⟩] = [("ZZZ", 1), ("AAA", 1)] ∧
    ("ZZZ", 1) ∈ refreshTrending 86400000 [⟨"ZZZ", 0⟩, ⟨"AAA", 1⟩] ∧
    refreshTrending 86400000 [⟨"ZZZ", 0⟩, ⟨"AAA", 1⟩] ≠ [("AAA", 1)] ∧
    refreshTrending 86400000 [⟨"ZZZ", 0⟩, ⟨"AAA", 1⟩] ≠ [("AAA", 1), ("ZZZ", 1)] := by
  decide

/-- Witness for C2: in a run with two qualifying mentions of "AAPL" the
listed count 2 equals the number of in-window mentions of that symbol. -/
theorem refreshTrending_amended_witness :
    (("AAPL", 2) : String × ℕ).2 =
      ((([⟨"AAPL", 1⟩, ⟨"AAPL", 2⟩] : List PostTickerMention).filter fun m =>
          decide (86400001 - 24 * 60 * 60 * 1000 ≤ m.postCreatedAt)).filter
          fun m => m.symbol == (("AAPL", 2) : String × ℕ).1).length :=
  (refreshTrending_amended 86400001 [⟨"AAPL", 1⟩, ⟨"AAPL", 2⟩]).2.2
    ("AAPL", 2) (by decide)

set_option maxRecDepth 4000 in
/-- C4: The quality-analysis validator maps the spec scenario as stated:
a numeric qualityScore of 1.4 is clamped to 1.0 — more generally every
numeric score outside [0, 1] is clamped into range, every validated score
lies in [0, 1], and every non-numeric score (NaN, string, array, other)
becomes absent rather than a default number; insightType " EARNINGS " is
case/whitespace-normalized to "earnings" and every unrecognised value
becomes absent; sector "technology" is title-cased to "Technology"; and a
200-character summary is truncated to exactly 147 characters plus the
"..." marker, 150 characters in total, ending in the ellipsis. -/
theorem validators_scenario :
    validateQualityScore (JVal.num (14/10)) = some 1
  ∧ (∀ q : ℚ, 1 < q → validateQualityScore (JVal.num q) = some 1)
  ∧ (∀ q : ℚ, q < 0 → validateQualityScore (JVal.num q) = some 0)
  ∧ (∀ (q x : ℚ), validateQualityScore (JVal.num q) = some x → 0 ≤ x ∧ x ≤ 1)
  ∧ validateQualityScore JVal.nan = none
  ∧ validateQualityScore JVal.other = none
  ∧ (∀ s, validateQualityScore (JVal.str s) = none)
  ∧ (∀ l, validateQualityScore (JVal.arr l) = none)
  ∧ validateInsightType (JVal.str " EARNINGS ") = some "earnings"
  ∧ (∀ s, VALID_INSIGHT_TYPES.contains (jsTrim (jsToLower s)) = false →
       validateInsightType (JVal.str s) = none)
  ∧ validateSector (JVal.str "technology") = some "Technology"
  ∧ validateSummary (JVal.str (String.mk (List.replicate 200 'x'))) =
      some (String.mk (List.replicate 147 'x') ++ "...")
  ∧ (String.mk (List.replicate 147 'x') ++ "...").length = 150
  ∧ (String.mk (List.replicate 147 'x') ++ "...").data.reverse.take 3 = ['.', '.', '.'] := by
  refine ⟨?_, ?_, ?_, ?_, rfl, rfl, fun _ => rfl, fun _ => rfl, by decide, ?_,
    by decide, by decide, by decide, by decide⟩
  · show some (max 0 (min 1 (14/10 : ℚ))) = some 1
    norm_num
  · intro q h
    show some (max 0 (min 1 q)) = some 1
    rw [min_eq_left h.le]
    norm_num
  · intro q h
    show some (max 0 (min 1 q)) = some 0
    rw [min_eq_right (by linarith), max_eq_left h.le]
  · intro q x h
    have hx : max 0 (min 1 q) = x := by
      have := h
      simpa [validateQualityScore] using this
    subst hx
    exact ⟨le_max_left _ _, max_le (by norm_num) (min_le_left _ _)⟩
  · intro s h
    show (if VALID_INSIGHT_TYPES.contains (jsTrim (jsToLower s)) then
        some (jsTrim (jsToLower s)) else none) = none
    rw [h]
    rfl

/-- Witness for C4: the clamp theorems applied at the concrete scores 2
and -1/2, and the unrecognised insight type "hype". -/
theorem validators_scenario_witness :
    validateQualityScore (JVal.num 2) = some 1 ∧
    validateQualityScore (JVal.num (-(1/2))) = some 0 ∧
    validateInsightType (JVal.str "hype") = none :=
  ⟨validators_scenario.2.1 2 (by norm_num),
   validators_scenario.2.2.1 (-(1/2)) (by norm_num),
   validators_scenario.2.2.2.2.2.2.2.2.2.1 "hype" (by decide)⟩

/-- C3: On the news-sentiment read path, when a cached row exists whose
`lastUpdated` is at least the 30-minute threshold old (so the freshness
test `lastUpdated > now - 30min` fails) and the fresh fetch yields fewer
than 3 articles, the handler returns the prior cached values flagged as
stale together with the human-readable reason, leaving the cache row in
place; when no cached row exists and the fetch yields fewer than 3
articles, it returns the explicit unavailable message — a normal response,
not an error. -/
theorem newsSentiment_staleness_fallback
    (now : ℤ) (symbol : String) (forceRefresh : Bool) (c : NewsSentimentCacheRow)
    (hasKey : Bool) (articles : List FinnhubNewsArticle)
    (o : AdapterOutcome NewsRawReply)
    (hstale : c.lastUpdated ≤ now - 30 * 60 * 1000)
    (hfew : articles.length < 3) :
    newsSentimentGET now symbol forceRefresh (some c) hasKey articles o =
      (NewsSentimentResponse.staleOk c
        ("Not enough recent news articles (" ++ toString articles.length ++
         " found, 3 required). Showing previous analysis."), some c)
  ∧ newsSentimentGET now symbol forceRefresh none hasKey articles o =
      (NewsSentimentResponse.unavailable
        "Not enough news articles found for analysis. Try a more popular ticker.",
       none) := by
  have hnotfresh : ¬ (now - 30 * 60 * 1000 < c.lastUpdated) := not_lt.mpr hstale
  constructor
  · simp only [newsSentimentGET]
    rw [decide_eq_false hnotfresh]
    simp [hfew]
  · simp [newsSentimentGET, hfew]

/-- Witness for C3: a cache row half an hour old at clock 1800001, an
empty fetch, and both fallbacks observed concretely. -/
theorem newsSentiment_staleness_fallback_witness :
    newsSentimentGET 1800001 "AAPL" false
        (some { symbol := "AAPL", bullishPercent := 40, bearishPercent := 30,
                neutralPercent := 30, companyNewsScore := 0, articleCount := 5,
                summary := some "prior", keyThemes := [], sentimentStrength := none,
                confidence := none, lastUpdated := 0 })
        true [] (AdapterOutcome.failure AdapterFailure.timeout) =
      (NewsSentimentResponse.staleOk
        { symbol := "AAPL", bullishPercent := 40, bearishPercent := 30,
          neutralPercent := 30, companyNewsScore := 0, articleCount := 5,
          summary := some "prior", keyThemes := [], sentimentStrength := none,
          confidence := none, lastUpdated := 0 }
        ("Not enough recent news articles (" ++
         toString (List.length ([] : List FinnhubNewsArticle)) ++
         " found, 3 required). Showing previous analysis."),
       some { symbol := "AAPL", bullishPercent := 40, bearishPercent := 30,
              neutralPercent := 30, companyNewsScore := 0, articleCount := 5,
              summary := some "prior", keyThemes := [], sentimentStrength := none,
              confidence := none, lastUpdated := 0 })
  ∧ newsSentimentGET 1800001 "AAPL" false none true []
        (AdapterOutcome.failure AdapterFailure.timeout) =
      (NewsSentimentResponse.unavailable
        "Not enough news articles found for analysis. Try a more popular ticker.",
       none) :=
  newsSentiment_staleness_fallback 1800001 "AAPL" false
    { symbol := "AAPL", bullishPercent := 40, bearishPercent := 30,
      neutralPercent := 30, companyNewsScore := 0, articleCount := 5,
      summary := some "prior", keyThemes := [], sentimentStrength := none,
      confidence := none, lastUpdated := 0 }
    true [] (AdapterOutcome.failure AdapterFailure.timeout)
    (by norm_num) (by decide)

/-- C7: The headline fetch queries the upper-cased primary symbol first;
when the primary yields at least 3 articles, or when no alias entry
exists, the primary's result is returned (and in the no-alias case the
result depends only on the primary fetch, i.e. no other ticker is
queried); when the primary yields fewer than 3 articles and an alias
exists, the alias result replaces the primary's exactly when it is
strictly larger; and the static `TICKER_FALLBACKS` map is symmetric. -/
theorem getCompanyNews_alias_escalation (symbol : String) (daysBack : ℕ)
    (fetch : String → AdapterOutcome (List FinnhubNewsArticle)) :
    (3 ≤ (fetchNewsForTicker (fetch (jsToUpper symbol))).length →
       getCompanyNews true symbol daysBack fetch =
         fetchNewsForTicker (fetch (jsToUpper symbol)))
  ∧ (TICKER_FALLBACKS (jsToUpper symbol) = none →
       getCompanyNews true symbol daysBack fetch =
         fetchNewsForTicker (fetch (jsToUpper symbol)))
  ∧ (∀ fallbackSymbol, TICKER_FALLBACKS (jsToUpper symbol) = some fallbackSymbol →
       (fetchNewsForTicker (fetch (jsToUpper symbol))).length < 3 →
       getCompanyNews true symbol daysBack fetch =
         if (fetchNewsForTicker (fetch (jsToUpper symbol))).length <
            (fetchNewsForTicker (fetch fallbackSymbol)).length
         then fetchNewsForTicker (fetch fallbackSymbol)
         else fetchNewsForTicker (fetch (jsToUpper symbol)))
  ∧ (∀ a b, TICKER_FALLBACKS a = some b → TICKER_FALLBACKS b = some a)
  ∧ (∀ fetch2 : String → AdapterOutcome (List FinnhubNewsArticle),
       fetch2 (jsToUpper symbol) = fetch (jsToUpper symbol) →
       TICKER_FALLBACKS (jsToUpper symbol) = none →
       getCompanyNews true symbol daysBack fetch2 =
         getCompanyNews true symbol daysBack fetch) := by
  refine ⟨?_, ?_, ?_, ?_, ?_⟩
  · intro h
    simp [getCompanyNews, Nat.not_lt.mpr h]
  · intro h
    by_cases hlen : (fetchNewsForTicker (fetch (jsToUpper symbol))).length < 3 <;>
      simp [getCompanyNews, h, hlen]
  · intro fallbackSymbol hfall hlen
    simp [getCompanyNews, hfall, hlen]
  · intro a b h
    unfold TICKER_FALLBACKS at h
    split_ifs at h with h1 h2 h3 h4 <;>
      first
        | (injection h with hb; subst hb; subst h1; rfl)
        | (injection h with hb; subst hb; subst h2; rfl)
        | (injection h with hb; subst hb; subst h3; rfl)
        | (injection h with hb; subst hb; subst h4; rfl)
  · intro fetch2 heq hnone
    simp [getCompanyNews, heq, hnone]

/-- Witness for C7 at symbol "goog": primary "GOOG" returns no articles,
the alias "GOOGL" returns three, so the alias's strictly larger result set
is used. -/
theorem getCompanyNews_alias_escalation_witness :
    getCompanyNews true "goog" 7
        (fun t => if t = "GOOG" then AdapterOutcome.success [] else
          AdapterOutcome.success
            (List.replicate 3
              { category := "company", datetime := 0, headline := "h", id := 1,
                image := "", related := "GOOGL", source := "src", summary := "",
                url := "u" })) =
      List.replicate 3
        { category := "company", datetime := 0, headline := "h", id := 1,
          image := "", related := "GOOGL", source := "src", summary := "",
          url := "u" } := by
  have h := (getCompanyNews_alias_escalation "goog" 7
      (fun t => if t = "GOOG" then AdapterOutcome.success [] else
        AdapterOutcome.success
          (List.replicate 3
            { category := "company", datetime := 0, headline := "h", id := 1,
              image := "", related := "GOOGL", source := "src", summary := "",
              url := "u" }))).2.2.1 "GOOGL" (by decide) (by decide)
  rw [h]
  decide

/-- C10: When at least 3 articles are fetched but the news-sentiment
analysis returns its unavailable result (missing credential or upstream
failure), both refresh paths still upsert the ticker's cache row: the row
written is the zero row — bullishPercent, bearishPercent, neutralPercent
and companyNewsScore all 0 and a null summary — and the keyed upsert
replaces whatever row was previously cached.  The scheduled-refresh step
records success and writes the row; the GET refresh branch writes the same
row and returns it as the fresh payload. -/
theorem unavailable_analysis_overwrites_cache
    (now : ℤ) (sym : String) (articles : List FinnhubNewsArticle)
    (cache : CacheMap) (o : AdapterOutcome NewsRawReply)
    (cached : Option NewsSentimentCacheRow) (f : AdapterFailure)
    (h3 : 3 ≤ articles.length) :
    (mkCacheRow sym nullNewsResult articles.length now).bullishPercent = 0
  ∧ (mkCacheRow sym nullNewsResult articles.length now).bearishPercent = 0
  ∧ (mkCacheRow sym nullNewsResult articles.length now).neutralPercent = 0
  ∧ (mkCacheRow sym nullNewsResult articles.length now).companyNewsScore = 0
  ∧ (mkCacheRow sym nullNewsResult articles.length now).summary = none
  ∧ refreshStep now (SymbolRun.ok articles nullNewsResult) sym cache =
      ({ symbol := sym, success := true, error := none,
         articleCount := some (articles.take 20).length },
       upsertCache cache sym (mkCacheRow sym nullNewsResult articles.length now))
  ∧ lookupCache
        (upsertCache cache sym (mkCacheRow sym nullNewsResult articles.length now))
        sym =
      some (mkCacheRow sym nullNewsResult articles.length now)
  ∧ newsSentimentGET now sym true cached false articles o =
      (NewsSentimentResponse.ok
        (mkCacheRow (jsToUpper sym) nullNewsResult articles.length now),
       some (mkCacheRow (jsToUpper sym) nullNewsResult articles.length now))
  ∧ newsSentimentGET now sym true cached true articles (AdapterOutcome.failure f) =
      (NewsSentimentResponse.ok
        (mkCacheRow (jsToUpper sym) nullNewsResult articles.length now),
       some (mkCacheRow (jsToUpper sym) nullNewsResult articles.length now)) := by
  have hn : ¬ (articles.length < 3) := by omega
  refine ⟨rfl, rfl, rfl, ?_, rfl, ?_, lookupCache_upsert_self _ _ _, ?_, ?_⟩
  · show ((((0 : ℤ) - 0 : ℤ) : ℚ) / 100) = 0
    norm_num
  · simp only [refreshStep]
    rw [if_neg hn]
  · simp [newsSentimentGET, hn, analyzeNewsSentiment_noKey]
  · simp [newsSentimentGET, hn, analyzeNewsSentiment_failure]

/-- Witness for C10: with three fetched articles and the null analysis,
the zero row replaces a previously cached non-zero "TSLA" row. -/
theorem unavailable_analysis_overwrites_cache_witness :
    lookupCache
        (upsertCache
          [("TSLA",
            { symbol := "TSLA", bullishPercent := 55, bearishPercent := 25,
              neutralPercent := 20, companyNewsScore := 3/10, articleCount := 8,
              summary := some "old", keyThemes := ["Deliveries"],
              sentimentStrength := some "strong", confidence := some "high",
              lastUpdated := -1 })]
          "TSLA"
          (mkCacheRow "TSLA" nullNewsResult
            (List.replicate 3
              ({ category := "company", datetime := 0, headline := "h", id := 1,
                 image := "", related := "TSLA", source := "src", summary := "",
                 url := "u" } : FinnhubNewsArticle)).length 0))
        "TSLA" =
      some (mkCacheRow "TSLA" nullNewsResult
        (List.replicate 3
          ({ category := "company", datetime := 0, headline := "h", id := 1,
             image := "", related := "TSLA", source := "src", summary := "",
             url := "u" } : FinnhubNewsArticle)).length 0) :=
  (unavailable_analysis_overwrites_cache 0 "TSLA"
    (List.replicate 3
      { category := "company", datetime := 0, headline := "h", id := 1,
        image := "", related := "TSLA", source := "src", summary := "",
        url := "u" })
    [("TSLA",
      { symbol := "TSLA", bullishPercent := 55, bearishPercent := 25,
        neutralPercent := 20, companyNewsScore := 3/10, articleCount := 8,
        summary := some "old", keyThemes := ["Deliveries"],
        sentimentStrength := some "strong", confidence := some "high",
        lastUpdated := -1 })]
    (AdapterOutcome.success NewsRawReply.noJson) none AdapterFailure.timeout
    (by decide)).2.2.2.2.2.2.1

lemma refreshStep_symbol (now : ℤ) (run : SymbolRun) (s : String) (c : CacheMap) :
    ((refreshStep now run s c).1).symbol = s := by
  cases run with
  | failBefore e => rfl
  | ok articles an =>
      simp only [refreshStep]
      split <;> rfl
  | failAfter e articles an =>
      simp only [refreshStep]
      split <;> rfl

lemma refreshStep_cache_other (now : ℤ) (run : SymbolRun) (s : String)
    (c : CacheMap) (t : String) (h : t ≠ s) :
    lookupCache (refreshStep now run s c).2 t = lookupCache c t := by
  cases run with
  | failBefore e => rfl
  | ok articles an =>
      simp only [refreshStep]
      split
      · rfl
      · exact lookupCache_upsert_ne c s t _ h
  | failAfter e articles an =>
      simp only [refreshStep]
      split
      · rfl
      · exact lookupCache_upsert_ne c s t _ h

lemma refreshLoop_cache_other (now : ℤ) (env : String → SymbolRun)
    (syms : List String) (c : CacheMap) (t : String) :
    t ∉ syms →
    lookupCache (refreshNewsSentimentLoop now env syms c).2 t = lookupCache c t := by
  induction syms generalizing c with
  | nil => intro _; rfl
  | cons s rest ih =>
      intro ht
      simp only [refreshNewsSentimentLoop]
      rw [ih _ (fun hm => ht (List.mem_cons_of_mem _ hm))]
      exact refreshStep_cache_other now (env s) s c t
        (fun he => ht (by rw [he]; exact List.mem_cons_self _ _))

lemma refreshLoop_symbols (now : ℤ) (env : String → SymbolRun)
    (syms : List String) (c : CacheMap) :
    (refreshNewsSentimentLoop now env syms c).1.map (fun en => en.symbol) = syms := by
  induction syms generalizing c with
  | nil => rfl
  | cons s rest ih =>
      simp only [refreshNewsSentimentLoop, List.map_cons]
      rw [refreshStep_symbol now (env s) s c, ih]

lemma refreshLoop_success (now : ℤ) (env : String → SymbolRun)
    (syms : List String) (c : CacheMap) (hnodup : syms.Nodup) :
    ∀ s arts an, s ∈ syms → env s = SymbolRun.ok arts an → 3 ≤ arts.length →
      ({ symbol := s, success := true, error := none,
         articleCount := some (arts.take 20).length } : RefreshResultEntry)
          ∈ (refreshNewsSentimentLoop now env syms c).1
      ∧ lookupCache (refreshNewsSentimentLoop now env syms c).2 s =
          some (mkCacheRow s an arts.length now) := by
  induction syms generalizing c with
  | nil =>
      intro s arts an hmem
      simp at hmem
  | cons s0 rest ih =>
      intro s arts an hmem henv hlen
      have hnotin : s0 ∉ rest := (List.nodup_cons.mp hnodup).1
      rcases List.mem_cons.mp hmem with rfl | hmem2
      · have hentry : (refreshStep now (env s) s c).1 =
            { symbol := s, success := true, error := none,
              articleCount := some (arts.take 20).length } := by
          rw [henv]
          simp only [refreshStep]
          rw [if_neg (by omega)]
        have hcache : (refreshStep now (env s) s c).2 =
            upsertCache c s (mkCacheRow s an arts.length now) := by
          rw [henv]
          simp only [refreshStep]
          rw [if_neg (by omega)]
        constructor
        · simp only [refreshNewsSentimentLoop]
          exact List.mem_cons.mpr (Or.inl hentry.symm)
        · simp only [refreshNewsSentimentLoop]
          rw [refreshLoop_cache_other now env rest _ s hnotin, hcache]
          exact lookupCache_upsert_self _ _ _
      · have hres := ih ((List.nodup_cons.mp hnodup).2)
          s arts an hmem2 henv hlen (c := (refreshStep now (env s0) s0 c).2)
        constructor
        · simp only [refreshNewsSentimentLoop]
          exact List.mem_cons.mpr (Or.inr hres.1)
        · simp only [refreshNewsSentimentLoop]
          exact hres.2

lemma refreshLoop_k_entry (now : ℤ) (env : String → SymbolRun)
    (syms : List String) (c : CacheMap) (k e : String)
    (hk : env k = SymbolRun.failBefore e) :
    k ∈ syms →
    ({ symbol := k, success := false, error := some e, articleCount := none } :
        RefreshResultEntry) ∈ (refreshNewsSentimentLoop now env syms c).1 := by
  induction syms generalizing c with
  | nil => intro h; simp at h
  | cons s0 rest ih =>
      intro hmem
      rcases List.mem_cons.mp hmem with rfl | hmem2
      · have hentry : (refreshStep now (env k) k c).1 =
            { symbol := k, success := false, error := some e, articleCount := none } := by
          rw [hk]
          rfl
        simp only [refreshNewsSentimentLoop]
        exact List.mem_cons.mpr (Or.inl hentry.symm)
      · simp only [refreshNewsSentimentLoop]
        exact List.mem_cons.mpr (Or.inr (ih _ hmem2))

lemma refreshLoop_failures_only_k (now : ℤ) (env : String → SymbolRun)
    (syms : List String) (c : CacheMap) (k e : String)
    (hok : ∀ s, s ∈ syms → s ≠ k →
        ∃ arts an, env s = SymbolRun.ok arts an ∧ 3 ≤ arts.length) :
    ∀ entry, entry ∈ (refreshNewsSentimentLoop now env syms c).1 →
      entry.success = false →
      entry.symbol = k ∧ (env k = SymbolRun.failBefore e → entry.error = some e) := by
  induction syms generalizing c with
  | nil =>
      intro entry h
      simp [refreshNewsSentimentLoop] at h
  | cons s0 rest ih =>
      intro entry hmem hfail
      simp only [refreshNewsSentimentLoop] at hmem
      rcases List.mem_cons.mp hmem with rfl | hmem2
      · by_cases hs : s0 = k
        · subst hs
          constructor
          · exact refreshStep_symbol now (env s0) s0 c
          · intro hke
            rw [hke]
            rfl
        · obtain ⟨arts, an, henv, hlen⟩ := hok s0 (List.mem_cons_self _ _) hs
          exfalso
          have : ((refreshStep now (env s0) s0 c).1).success = true := by
            rw [henv]
            simp only [refreshStep]
            rw [if_neg (by omega)]
          rw [hfail] at this
          cases this
      · exact ih _
          (fun s hs hne => hok s (List.mem_cons_of_mem _ hs) hne)
          entry hmem2 hfail

/-- C8: During one run of the scheduled news-sentiment refresh, a
`failBefore` failure of ticker k is caught and recorded against k only,
and the loop is not aborted: every symbol still gets exactly one result
entry in order; every other, successfully processed ticker with at least 3
articles both appears as a success entry and has its freshly written cache
row intact at the end of the run (neither rolled back nor skipped); and
every failure entry in the run belongs to k, carrying k's error. -/
theorem refresh_batch_isolation (now : ℤ) (env : String → SymbolRun)
    (symbols : List String) (cache : CacheMap) (k e : String)
    (hnodup : symbols.Nodup)
    (hk : env k = SymbolRun.failBefore e)
    (hok : ∀ s, s ∈ symbols → s ≠ k →
        ∃ arts an, env s = SymbolRun.ok arts an ∧ 3 ≤ arts.length) :
    (refreshNewsSentimentLoop now env symbols cache).1.map (fun en => en.symbol) = symbols
  ∧ (k ∈ symbols →
       ({ symbol := k, success := false, error := some e, articleCount := none } :
           RefreshResultEntry) ∈ (refreshNewsSentimentLoop now env symbols cache).1)
  ∧ (∀ s arts an, s ∈ symbols → s ≠ k → env s = SymbolRun.ok arts an →
       3 ≤ arts.length →
       ({ symbol := s, success := true, error := none,
          articleCount := some (arts.take 20).length } : RefreshResultEntry)
           ∈ (refreshNewsSentimentLoop now env symbols cache).1
       ∧ lookupCache (refreshNewsSentimentLoop now env symbols cache).2 s =
           some (mkCacheRow s an arts.length now))
  ∧ (∀ entry, entry ∈ (refreshNewsSentimentLoop now env symbols cache).1 →
       entry.success = false → entry.symbol = k ∧ entry.error = some e) := by
  refine ⟨refreshLoop_symbols now env symbols cache,
    refreshLoop_k_entry now env symbols cache k e hk, ?_, ?_⟩
  · intro s arts an hmem hne henv hlen
    exact refreshLoop_success now env symbols cache hnodup s arts an hmem henv hlen
  · intro entry hmem hfail
    have h := refreshLoop_failures_only_k now env symbols cache k e hok entry hmem hfail
    exact ⟨h.1, h.2 hk⟩

/-- Witness for C8: two tickers where "B" fails with "boom" and "A"
succeeds with three articles — "A" keeps its success entry and its cache
row, "B"'s failure is recorded against "B" only. -/
theorem refresh_batch_isolation_witness :
    ({ symbol := "B", success := false, error := some "boom", articleCount := none } :
        RefreshResultEntry) ∈
      (refreshNewsSentimentLoop 0
        (fun s => if s = "B" then SymbolRun.failBefore "boom" else
          SymbolRun.ok
            (List.replicate 3
              { category := "company", datetime := 0, headline := "h", id := 1,
                image := "", related := "A", source := "src", summary := "",
                url := "u" })
            nullNewsResult)
        ["A", "B"] []).1 := by
  have h := refresh_batch_isolation 0
    (fun s => if s = "B" then SymbolRun.failBefore "boom" else
      SymbolRun.ok
        (List.replicate 3
          { category := "company", datetime := 0, headline := "h", id := 1,
            image := "", related := "A", source := "src", summary := "",
            url := "u" })
        nullNewsResult)
    ["A", "B"] [] "B" "boom" (by decide) rfl ?_
  · exact h.2.1 (by decide)
  · intro s hs hne
    rcases List.mem_cons.mp hs with rfl | hs2
    · exact ⟨List.replicate 3
        { category := "company", datetime := 0, headline := "h", id := 1,
          image := "", related := "A", source := "src", summary := "",
          url := "u" }, nullNewsResult, rfl, by decide⟩
    · rcases List.mem_cons.mp hs2 with rfl | hs3
      · exact absurd rfl hne
      · simp at hs3
